import Mathlib

/-!
Verification development for the panflute document-AST library
(`base.py`, `containers.py`, `constants.py`, `elements.py`).

The element catalog is embedded for the representative node kinds the
properties under study exercise (the full ~45-kind catalog is mechanical
and out of the core's scope); every embedded definition follows the
corresponding Python source line by line.  Fallible operations return
`Except String`, with the error string naming the Python exception raised.
Numbers are embedded as `Int` (the source performs no arithmetic on the
numeric payloads it stores, so relative column widths lose nothing by
being integral here).
-/

namespace Panflute

/-- Wire-format JSON values (objects keep key order, as `OrderedDict` does). -/
inductive Json where
  | null
  | str (s : String)
  | int (n : Int)
  | bool (b : Bool)
  | arr (xs : List Json)
  | obj (kvs : List (String × Json))

/-- The element catalog (`elements.py` / `base.py`), restricted to the
representative kinds exercised by the properties under study.  Fields mirror
the Python `__slots__` that the codec and walk engine read. -/
inductive Elem where
  | str (text : String)
  | space
  | para (content : List Elem)
  | plain (content : List Elem)
  | emph (content : List Elem)
  | quoted (quote_type : String) (content : List Elem)
  | math (format : String) (text : String)
  | cite (citations : List Elem) (content : List Elem)
  | citation (id : String) (mode : String) (pre : List Elem) (suf : List Elem)
      (note_num : Int) (hash : Int)
  | bulletList (content : List Elem)
  | listItem (content : List Elem)
  | orderedList (start : Int) (style : String) (delimiter : String) (content : List Elem)
  | table (content : List Elem) (header : Option Elem) (caption : List Elem)
      (alignment : List String) (width : List Int) (rows : Nat) (cols : Nat)
  | tableRow (content : List Elem)
  | tableCell (content : List Elem)
  | metaString (text : String)
  | metaBool (boolean : Bool)
  | metaList (content : List Elem)
  | metaMap (content : List (String × Elem))
  | metaInlines (content : List Elem)
  | metaBlocks (content : List Elem)
  | doc (content : List Elem) (meta : List (String × Elem)) (format : String)
      (api_version : Option (List Int))

/-- `isinstance(e, Inline)`: the Python class hierarchy makes `Str`, `Space`,
`Emph`, `Quoted`, `Math` (via `InlineText`) and `Cite` inline elements. -/
def isInline : Elem → Bool
  | .str _ | .space | .emph _ | .quoted _ _ | .math _ _ | .cite _ _ => true
  | _ => false

/-- `isinstance(e, Block)`: `Para`, `Plain`, `BulletList`, `ListItem`,
`OrderedList`, `Table`, `TableRow`, `TableCell` derive from `Block`. -/
def isBlock : Elem → Bool
  | .para _ | .plain _ | .bulletList _ | .listItem _ | .orderedList _ _ _ _
  | .table _ _ _ _ _ _ _ | .tableRow _ | .tableCell _ => true
  | _ => false

/-- `isinstance(e, MetaValue)`. -/
def isMetaValue : Elem → Bool
  | .metaString _ | .metaBool _ | .metaList _ | .metaMap _
  | .metaInlines _ | .metaBlocks _ => true
  | _ => false

def isTableRowE : Elem → Bool
  | .tableRow _ => true
  | _ => false

def isTableCellE : Elem → Bool
  | .tableCell _ => true
  | _ => false

def isListItemE : Elem → Bool
  | .listItem _ => true
  | _ => false

-- constants.py

def LIST_NUMBER_STYLES : List String :=
  ["DefaultStyle", "Example", "Decimal", "LowerRoman",
   "UpperRoman", "LowerAlpha", "UpperAlpha"]

def LIST_NUMBER_DELIMITERS : List String :=
  ["DefaultDelim", "Period", "OneParen", "TwoParens"]

def TABLE_ALIGNMENT : List String :=
  ["AlignLeft", "AlignRight", "AlignCenter", "AlignDefault"]

def QUOTE_TYPES : List String := ["SingleQuote", "DoubleQuote"]

def CITATION_MODE : List String := ["AuthorInText", "SuppressAuthor", "NormalCitation"]

def MATH_FORMATS : List String := ["DisplayMath", "InlineMath"]

def RAW_FORMATS : List String := ["html", "tex", "latex"]

def SPECIAL_ELEMENTS : List String :=
  LIST_NUMBER_STYLES ++ LIST_NUMBER_DELIMITERS ++ MATH_FORMATS ++
  TABLE_ALIGNMENT ++ QUOTE_TYPES ++ CITATION_MODE

/-- Modelled from the spec: `utils.check_group` (utils.py is not under src/);
a string outside the field's closed vocabulary raises an InvalidEnumValue
style `TypeError` (spec taxonomy, section 7). -/
def check_group (value : String) (group : List String) : Except String String :=
  if value ∈ group then .ok value else .error "TypeError: not in group"

/-- Modelled from the spec: `utils.encode_dict` (utils.py is not under src/);
every non-root node serializes to an ordered mapping with the literal keys
`t` and `c` in that order (spec section 4.3). -/
def encode_dict (tag : String) (content : Json) : Json :=
  .obj [("t", .str tag), ("c", content)]

/-- Checks every member of a list against a boolean kind test, left to right,
failing at the first offender: the shape of a `check_type` loop such as
`ListContainer.extend` or a Python list comprehension of checks. -/
def checkList (p : α → Bool) (err : String) : List α → Except String (List α)
  | [] => .ok []
  | x :: xs =>
      if p x then
        match checkList p err xs with
        | .ok ys => .ok (x :: ys)
        | .error e => .error e
      else .error err

/-- A dynamically-typed Python value as seen by the codec and the metadata
coercion: JSON scalars, lists, (ordered) dicts, `None`, or an already
constructed element.  Decoded special-element tags are plain strings, exactly
as `from_json` returns them. -/
inductive PyVal where
  | none
  | bool (b : Bool)
  | num (n : Int)
  | str (s : String)
  | list (xs : List PyVal)
  | dict (kvs : List (String × PyVal))
  | elem (e : Elem)

/-- `check_type(v, MetaValue)` on an already-coerced value: only a
`MetaValue` element may enter a metadata container. -/
def isMetaValuePV : PyVal → Bool
  | .elem e => isMetaValue e
  | _ => false

def asMetaElem : PyVal → Option Elem
  | .elem e => if isMetaValue e then some e else Option.none
  | _ => Option.none

/-- `extend`/`update` of a metadata container: `check_type(v, MetaValue)` on
each member, left to right (`elements.py`, MetaList/MetaMap constructors via
the containers). -/
def checkMetaAll : List PyVal → Except String (List Elem)
  | [] => .ok []
  | v :: vs =>
      match asMetaElem v with
      | some e =>
          match checkMetaAll vs with
          | .ok es => .ok (e :: es)
          | .error err => .error err
      | Option.none => .error "TypeError"

def checkMetaAllKVs : List (String × PyVal) → Except String (List (String × Elem))
  | [] => .ok []
  | (k, v) :: vs =>
      match asMetaElem v with
      | some e =>
          match checkMetaAllKVs vs with
          | .ok es => .ok ((k, e) :: es)
          | .error err => .error err
      | Option.none => .error "TypeError"

mutual

/-- `elements.py` `builtin2meta`: native-value coercion applied when values
enter a metadata container.  Note the source has no `str` branch: strings
(and `None`) fall into the final pass-through case. -/
def builtin2meta : PyVal → Except String PyVal
  | .bool b => .ok (.elem (.metaBool b))
  | .num n => .ok (.elem (.metaString (toString n)))
  | .list xs =>
      match metaListInit xs with
      | .ok e => .ok (.elem e)
      | .error err => .error err
  | .dict kvs =>
      match metaMapInit kvs with
      | .ok e => .ok (.elem e)
      | .error err => .error err
  | .elem e =>
      if isBlock e then .ok (.elem (.metaBlocks [e]))
      else if isInline e then .ok (.elem (.metaInlines [e]))
      else .ok (.elem e)
  | v => .ok v

/-- `MetaList.__init__`: coerce every argument with `builtin2meta` (the list
comprehension), then `_set_content(args, MetaValue)` type-checks each member. -/
def metaListInit (xs : List PyVal) : Except String Elem :=
  match b2mAll xs with
  | .ok ms =>
      match checkMetaAll ms with
      | .ok es => .ok (.metaList es)
      | .error err => .error err
  | .error err => .error err

/-- `MetaMap.__init__`: coerce every value (the pair comprehension), then the
`DictContainer` type-checks each member on insertion. -/
def metaMapInit (kvs : List (String × PyVal)) : Except String Elem :=
  match b2mAllKVs kvs with
  | .ok ms =>
      match checkMetaAllKVs ms with
      | .ok es => .ok (.metaMap es)
      | .error err => .error err
  | .error err => .error err

def b2mAll : List PyVal → Except String (List PyVal)
  | [] => .ok []
  | v :: vs =>
      match builtin2meta v with
      | .ok m =>
          match b2mAll vs with
          | .ok ms => .ok (m :: ms)
          | .error err => .error err
      | .error err => .error err

def b2mAllKVs : List (String × PyVal) → Except String (List (String × PyVal))
  | [] => .ok []
  | (k, v) :: vs =>
      match builtin2meta v with
      | .ok m =>
          match b2mAllKVs vs with
          | .ok ms => .ok ((k, m) :: ms)
          | .error err => .error err
      | .error err => .error err

end

/-- `MetaList.__setitem__(i, v)`: coerces with `builtin2meta`, then
`ListContainer.__setitem__` type-checks and stores. -/
def metaListSet (items : List Elem) (i : Nat) (v : PyVal) : Except String (List Elem) :=
  match builtin2meta v with
  | .ok m =>
      match asMetaElem m with
      | some e =>
          if i < items.length then .ok (items.set i e)
          else .error "IndexError"
      | Option.none => .error "TypeError"
  | .error err => .error err

/-- `MetaList.append(i)`: delegates straight to `self.content.append(i)`
(`MutableSequence.append` → `ListContainer.insert` → `check_type`), with no
`builtin2meta` coercion. -/
def metaListAppend (items : List Elem) (v : PyVal) : Except String (List Elem) :=
  match asMetaElem v with
  | some e => .ok (items ++ [e])
  | Option.none => .error "TypeError"

def dictStore (kvs : List (String × Elem)) (k : String) (e : Elem) :
    List (String × Elem) :=
  if kvs.any (fun kv => kv.fst == k) then
    kvs.map (fun kv => if kv.fst == k then (k, e) else kv)
  else kvs ++ [(k, e)]

/-- `MetaMap.__setitem__(k, v)`: coerces with `builtin2meta`, then
`DictContainer.__setitem__` type-checks and stores (insertion order kept,
existing keys overwritten in place). -/
def metaMapSet (kvs : List (String × Elem)) (k : String) (v : PyVal) :
    Except String (List (String × Elem)) :=
  match builtin2meta v with
  | .ok m =>
      match asMetaElem m with
      | some e => .ok (dictStore kvs k e)
      | Option.none => .error "TypeError"
  | .error err => .error err

-- Doc api_version validation (elements.py, Doc.__init__)

/-- Python tuple `<` on integer sequences (lexicographic, shorter prefix is
smaller). -/
def pyTupleLt : List Int → List Int → Bool
  | _, [] => false
  | [], _ :: _ => true
  | a :: as, b :: bs => a < b || (a == b && pyTupleLt as bs)

/-- Python tuple `<=`. -/
def pyTupleLe (a b : List Int) : Bool := pyTupleLt a b || a == b

/-- `Doc.__init__` api_version handling: `None` means pandoc legacy; a
version longer than four components, or one tuple-`<=` `(1, 17, 0)`, raises
`TypeError("invalid api version", ...)`; anything else is stored. -/
def docApiValidate : Option (List Int) → Except String (Option (List Int))
  | Option.none => .ok Option.none
  | some v =>
      if v.length > 4 then .error "TypeError: invalid api version"
      else if pyTupleLe v [1, 17, 0] then .error "TypeError: invalid api version"
      else .ok (some v)

-- Table construction (elements.py, Table.__init__ and the header setter)

def rowCells : Elem → List Elem
  | .tableRow cs => cs
  | _ => []

/-- `Table.__init__`: content rows are type-checked as `TableRow`; the column
count is read off the unguarded `self.content[0]`; the header setter rebuilds
a `TableRow` (type-checking the cells) and raises `IndexError` on a column
mismatch; the caption members are type-checked as `Inline`; alignment entries
pass `check_group` before the column-count check; widths are length-checked
last. -/
def tableInit (args : List Elem) (header : Option Elem) (caption : Option (List Elem))
    (alignment : Option (List String)) (width : Option (List Int)) :
    Except String Elem :=
  match checkList isTableRowE "TypeError" args with
  | .error err => .error err
  | .ok _ =>
    let rows := args.length
    match args.head? with
    | Option.none => .error "IndexError: list index out of range"
    | some firstRow =>
      let cols := (rowCells firstRow).length
      let headerRes : Except String (Option Elem) :=
        match header with
        | Option.none => .ok Option.none
        | some hr =>
          match hr with
          | .tableRow cells =>
              match checkList isTableCellE "TypeError" cells with
              | .error err => .error err
              | .ok _ =>
                  if cells.length ≠ cols then
                    .error "IndexError: table header has an incorrect number of cols"
                  else .ok (some (Elem.tableRow cells))
          | _ => .error "TypeError: not iterable"
      match headerRes with
      | .error err => .error err
      | .ok headerV =>
        let capList := match caption with
          | Option.none => []
          | some xs => xs
        match checkList isInline "TypeError" capList with
        | .error err => .error err
        | .ok _ =>
          let alignRes : Except String (List String) :=
            match alignment with
            | Option.none => .ok (List.replicate cols "AlignDefault")
            | some al =>
                match checkList (fun a => a ∈ TABLE_ALIGNMENT) "TypeError: not in group" al with
                | .error err => .error err
                | .ok al2 =>
                    if al2.length ≠ cols then
                      .error "IndexError: alignment has an incorrect number of cols"
                    else .ok al2
          match alignRes with
          | .error err => .error err
          | .ok alignV =>
            let widthRes : Except String (List Int) :=
              match width with
              | Option.none => .ok (List.replicate cols 0)
              | some w =>
                  if w.length ≠ cols then
                    .error "IndexError: width has an incorrect number of cols"
                  else .ok w
            match widthRes with
            | .error err => .error err
            | .ok widthV =>
                .ok (.table args headerV capList alignV widthV rows cols)

-- Encoding (base.py Element.to_json, elements.py _slots_to_json and
-- _slots_to_json_legacy / Citation.to_json and to_json_legacy)

mutual

/-- `Element.to_json` specialized per kind, i.e. `encode_dict(tag,
self._slots_to_json())` with each kind's payload builder inlined.  When
`legacy` is true, the kinds that define a second payload builder in the
source (`Quoted`, `Math`, `OrderedList`, `Table` via `_slots_to_json_legacy`
and `Citation` via `to_json_legacy`) use it; the flag itself is the
serializer selection modelled below in `dump`. -/
def toJsonM (legacy : Bool) : Elem → Json
  | .str t => encode_dict "Str" (.str t)
  | .space => .obj [("t", .str "Space")]
  | .para c => encode_dict "Para" (.arr (toJsonListM legacy c))
  | .plain c => encode_dict "Plain" (.arr (toJsonListM legacy c))
  | .emph c => encode_dict "Emph" (.arr (toJsonListM legacy c))
  | .quoted qt c =>
      let qtJson := if legacy then encode_dict qt (.arr []) else Json.obj [("t", .str qt)]
      encode_dict "Quoted" (.arr [qtJson, .arr (toJsonListM legacy c)])
  | .math fmt txt =>
      let fmtJson := if legacy then encode_dict fmt (.arr []) else Json.obj [("t", .str fmt)]
      encode_dict "Math" (.arr [fmtJson, .str txt])
  | .cite cits c =>
      encode_dict "Cite" (.arr [.arr (toJsonListM legacy cits), .arr (toJsonListM legacy c)])
  | .citation cid mode pre suf noteNum h =>
      let modeJson := if legacy then encode_dict mode (.arr []) else Json.obj [("t", .str mode)]
      .obj [("citationSuffix", .arr (toJsonListM legacy suf)),
            ("citationNoteNum", .int noteNum),
            ("citationMode", modeJson),
            ("citationPrefix", .arr (toJsonListM legacy pre)),
            ("citationId", .str cid),
            ("citationHash", .int h)]
  | .bulletList c => encode_dict "BulletList" (.arr (toJsonListM legacy c))
  | .listItem c => encode_dict "ListItem" (.arr (toJsonListM legacy c))
  | .orderedList start style delim c =>
      let styleJson := if legacy then encode_dict style (.arr []) else Json.obj [("t", .str style)]
      let delimJson := if legacy then encode_dict delim (.arr []) else Json.obj [("t", .str delim)]
      encode_dict "OrderedList"
        (.arr [.arr [.int start, styleJson, delimJson], .arr (toJsonListM legacy c)])
  | .table c h cap al w _rows cols =>
      let alJson := if legacy then al.map (fun x => encode_dict x (.arr []))
                    else al.map (fun x => Json.obj [("t", .str x)])
      let headerJson := match h with
        | Option.none => Json.arr (List.replicate cols (.arr []))
        | some hr => toJsonM legacy hr
      encode_dict "Table"
        (.arr [.arr (toJsonListM legacy cap), .arr alJson, .arr (w.map Json.int),
               headerJson, .arr (toJsonListM legacy c)])
  | .tableRow c => encode_dict "TableRow" (.arr (toJsonListM legacy c))
  | .tableCell c => encode_dict "TableCell" (.arr (toJsonListM legacy c))
  | .metaString t => encode_dict "MetaString" (.str t)
  | .metaBool b => encode_dict "MetaBool" (.bool b)
  | .metaList c => encode_dict "MetaList" (.arr (toJsonListM legacy c))
  | .metaMap kvs => encode_dict "MetaMap" (.obj (toJsonKVsM legacy kvs))
  | .metaInlines c => encode_dict "MetaInlines" (.arr (toJsonListM legacy c))
  | .metaBlocks c => encode_dict "MetaBlocks" (.arr (toJsonListM legacy c))
  | .doc blocks meta _fmt api =>
      let metaJson := Json.obj (toJsonKVsM legacy meta)
      let blocksJson := Json.arr (toJsonListM legacy blocks)
      match api with
      | Option.none => .arr [.obj [("unMeta", metaJson)], blocksJson]
      | some v => .obj [("pandoc-api-version", .arr (v.map Json.int)),
                        ("meta", metaJson), ("blocks", blocksJson)]

def toJsonListM (legacy : Bool) : List Elem → List Json
  | [] => []
  | e :: es => toJsonM legacy e :: toJsonListM legacy es

def toJsonKVsM (legacy : Bool) : List (String × Elem) → List (String × Json)
  | [] => []
  | (k, e) :: es => (k, toJsonM legacy e) :: toJsonKVsM legacy es

end

/-- `Element.to_json` as written in `base.py`: it always calls
`_slots_to_json`, the new-format payload builders. -/
def toJson : Elem → Json := toJsonM false

/-- Modelled from the spec: the serializer entry point (`io.dump`, which is
not under src/) encodes a `Doc` in legacy mode exactly when
`Document.api_version` is absent, and in new-format mode when it is set
(spec sections 4.3 and 9). -/
def dump : Elem → Json
  | .doc blocks meta fmt api => toJsonM api.isNone (.doc blocks meta fmt api)
  | e => toJsonM false e

-- Decoding (elements.py from_json, applied to every JSON object bottom-up
-- as an object_pairs_hook)

def lookupKey (kvs : List (String × PyVal)) (k : String) : Option PyVal :=
  match kvs.find? (fun kv => kv.fst == k) with
  | some kv => some kv.snd
  | Option.none => Option.none

def hasKey (kvs : List (String × PyVal)) (k : String) : Bool :=
  (lookupKey kvs k).isSome

/-- `data[k]`: `KeyError` when absent. -/
def getKey (kvs : List (String × PyVal)) (k : String) : Except String PyVal :=
  match lookupKey kvs k with
  | some v => .ok v
  | Option.none => .error ("KeyError: " ++ k)

/-- `c[i]` on a decoded value: `IndexError` past the end, `TypeError` when the
value is not index-able. -/
def pyIx (p : PyVal) (i : Nat) : Except String PyVal :=
  match p with
  | .list xs =>
      match xs.get? i with
      | some v => .ok v
      | Option.none => .error "IndexError"
  | _ => .error "TypeError"

/-- Python iteration as used by `Cls(*c)` and the decode comprehensions:
lists yield members, strings yield one-character strings, dicts yield their
keys, everything else raises `TypeError`. -/
def pyIter : PyVal → Except String (List PyVal)
  | .list xs => .ok xs
  | .str s => .ok (s.toList.map (fun ch => .str (String.mk [ch])))
  | .dict kvs => .ok (kvs.map (fun kv => PyVal.str kv.fst))
  | _ => .error "TypeError: not iterable"

/-- `check_type(v, int)` (a Python `bool` is an `int`). -/
def pyInt : PyVal → Except String Int
  | .num n => .ok n
  | .bool b => .ok (if b then 1 else 0)
  | _ => .error "TypeError"

/-- `_set_content(args, oktypes)`: every member must be an element of the
declared kind set. -/
def checkElemList (check : Elem → Bool) : List PyVal → Except String (List Elem)
  | [] => .ok []
  | .elem e :: vs =>
      if check e then
        match checkElemList check vs with
        | .ok es => .ok (e :: es)
        | .error err => .error err
      else .error "TypeError"
  | _ :: _ => .error "TypeError"

/-- `Cls(*c)` for a container element: iterate `c`, then type-check every
argument against the class's `child_type`. -/
def asElemArgs (check : Elem → Bool) (p : PyVal) : Except String (List Elem) :=
  match pyIter p with
  | .ok vs => checkElemList check vs
  | .error err => .error err

/-- Members of a decoded list that must already be elements (stray scalars
fail the downstream `check_type` anyway). -/
def asElemsPlain : List PyVal → Except String (List Elem)
  | [] => .ok []
  | .elem e :: vs =>
      match asElemsPlain vs with
      | .ok es => .ok (e :: es)
      | .error err => .error err
  | _ :: _ => .error "TypeError"

def asStrList : List PyVal → Except String (List String)
  | [] => .ok []
  | .str s :: vs =>
      match asStrList vs with
      | .ok ss => .ok (s :: ss)
      | .error err => .error err
  | _ :: _ => .error "TypeError: not in group"

def asIntListL : List PyVal → Except String (List Int)
  | [] => .ok []
  | v :: vs =>
      match pyInt v with
      | .ok n =>
          match asIntListL vs with
          | .ok ns => .ok (n :: ns)
          | .error err => .error err
      | .error err => .error err

/-- `Citation.__init__`: checks, in source order, the id (str), the mode
(`CITATION_MODE`), the hash and note number (int), then wraps prefix and
suffix in Inline-checked containers. -/
def citationInit (cid mode preV sufV hashV nnV : PyVal) : Except String Elem :=
  match cid with
  | .str cidS =>
    (match mode with
     | .str modeS =>
       (match check_group modeS CITATION_MODE with
        | .ok modeOk =>
          (match pyInt hashV with
           | .ok hashI =>
             (match pyInt nnV with
              | .ok nnI =>
                (match asElemArgs isInline preV with
                 | .ok pre =>
                   (match asElemArgs isInline sufV with
                    | .ok suf => .ok (.citation cidS modeOk pre suf nnI hashI)
                    | .error err => .error err)
                 | .error err => .error err)
              | .error err => .error err)
           | .error err => .error err)
        | .error err => .error err)
     | _ => .error "TypeError: not in group")
  | _ => .error "TypeError"

/-- `_decode_citation(dct)`: reads the six `citationX` keys (in source
order), then constructs the `Citation`. -/
def decodeCitation (d : PyVal) : Except String Elem :=
  match d with
  | .dict kvs =>
    (match getKey kvs "citationId" with
     | .ok cid =>
       (match getKey kvs "citationMode" with
        | .ok mode =>
          (match getKey kvs "citationPrefix" with
           | .ok preV =>
             (match getKey kvs "citationSuffix" with
              | .ok sufV =>
                (match getKey kvs "citationHash" with
                 | .ok hashV =>
                   (match getKey kvs "citationNoteNum" with
                    | .ok nnV => citationInit cid mode preV sufV hashV nnV
                    | .error err => .error err)
                 | .error err => .error err)
              | .error err => .error err)
           | .error err => .error err)
        | .error err => .error err)
     | .error err => .error err)
  | _ => .error "TypeError"

def decodeCitationList : List PyVal → Except String (List Elem)
  | [] => .ok []
  | d :: ds =>
      match decodeCitation d with
      | .ok e =>
          match decodeCitationList ds with
          | .ok es => .ok (e :: es)
          | .error err => .error err
      | .error err => .error err

def decodeCells : List PyVal → Except String (List Elem)
  | [] => .ok []
  | x :: xs =>
      match asElemArgs isBlock x with
      | .ok blocks =>
          match decodeCells xs with
          | .ok rest => .ok (Elem.tableCell blocks :: rest)
          | .error err => .error err
      | .error err => .error err

/-- `_decode_row(row)`: `TableCell(*x)` for each member, wrapped in a
`TableRow` (whose cell type-check then succeeds by construction). -/
def decodeRow (row : PyVal) : Except String Elem :=
  match pyIter row with
  | .ok cellsV =>
      match decodeCells cellsV with
      | .ok cells => .ok (.tableRow cells)
      | .error err => .error err
  | .error err => .error err

def decodeRows : List PyVal → Except String (List Elem)
  | [] => .ok []
  | r :: rs =>
      match decodeRow r with
      | .ok e =>
          match decodeRows rs with
          | .ok es => .ok (e :: es)
          | .error err => .error err
      | .error err => .error err

/-- `[ListItem(*item) for item in c]` (BulletList / OrderedList items). -/
def decodeListItems : List PyVal → Except String (List Elem)
  | [] => .ok []
  | item :: items =>
      match asElemArgs isBlock item with
      | .ok blocks =>
          match decodeListItems items with
          | .ok rest => .ok (Elem.listItem blocks :: rest)
          | .error err => .error err
      | .error err => .error err

/-- `Doc.__init__` (decode path): type-check the blocks, build the metadata
map through `builtin2meta`, then validate the api version. -/
def docInit (items : PyVal) (metaV : PyVal) (api : Option PyVal) : Except String Elem :=
  match asElemArgs isBlock items with
  | .error err => .error err
  | .ok blocks =>
    let metaRes : Except String (List (String × Elem)) :=
      match metaV with
      | .dict kvs =>
          match metaMapInit kvs with
          | .ok (.metaMap es) => .ok es
          | .ok _ => .error "TypeError"
          | .error err => .error err
      | .elem (.metaMap kvs) => .ok kvs
      | _ => .error "TypeError"
    match metaRes with
    | .error err => .error err
    | .ok meta =>
      let apiRes : Except String (Option (List Int)) :=
        match api with
        | Option.none => .ok Option.none
        | some a =>
            match a with
            | .list xs =>
                match asIntListL xs with
                | .ok ns => .ok (some ns)
                | .error err => .error err
            | _ => .error "TypeError"
      match apiRes with
      | .error err => .error err
      | .ok apiL =>
          match docApiValidate apiL with
          | .ok apiV => .ok (.doc blocks meta "html" apiV)
          | .error err => .error err

/-- The tag dispatch of `from_json` (`elements.py`), in source branch order,
restricted to the embedded catalog (the omitted branches — `BlockQuote`,
`Strong`, `Div`, `Header`, `Link`, `CodeBlock`, `DefinitionList`, etc. — are
mechanical copies of the `Para`-family shapes and are not exercised below).
Note the source dispatch has no branch for `ListItem`, `TableRow`,
`TableCell`, `Definition` or `LineItem`: those tags fall through to the
`unknown tag` failure. -/
def from_json_dispatch (tag : String) (c : Option PyVal) : Except String PyVal :=
  if tag == "Str" then
    match c with
    | some (.str s) => .ok (.elem (.str s))
    | _ => .error "TypeError"
  else if tag == "Space" then .ok (.elem .space)
  else if tag == "Para" then
    match c with
    | some cv =>
        (match asElemArgs isInline cv with
         | .ok xs => .ok (.elem (.para xs))
         | .error err => .error err)
    | Option.none => .error "TypeError: not iterable"
  else if tag == "Plain" then
    match c with
    | some cv =>
        (match asElemArgs isInline cv with
         | .ok xs => .ok (.elem (.plain xs))
         | .error err => .error err)
    | Option.none => .error "TypeError: not iterable"
  else if tag == "Emph" then
    match c with
    | some cv =>
        (match asElemArgs isInline cv with
         | .ok xs => .ok (.elem (.emph xs))
         | .error err => .error err)
    | Option.none => .error "TypeError: not iterable"
  else if tag == "Quoted" then
    -- Quoted(*c[1], quote_type=c[0]): the content is unpacked (and type
    -- checked by the constructor) before check_group runs on the quote type
    match c with
    | some cv =>
        (match pyIx cv 1 with
         | .ok contV =>
           (match pyIx cv 0 with
            | .ok qtV =>
              (match asElemArgs isInline contV with
               | .ok xs =>
                 (match qtV with
                  | .str s =>
                      (match check_group s QUOTE_TYPES with
                       | .ok qt => .ok (.elem (.quoted qt xs))
                       | .error err => .error err)
                  | _ => .error "TypeError: not in group")
               | .error err => .error err)
            | .error err => .error err)
         | .error err => .error err)
    | Option.none => .error "TypeError"
  else if tag == "Math" then
    -- Math(text=c[1], format=c[0]); InlineText.__init__ checks the format
    -- against RAW_FORMATS
    match c with
    | some cv =>
        (match pyIx cv 1 with
         | .ok txtV =>
           (match pyIx cv 0 with
            | .ok fmtV =>
              (match txtV with
               | .str txt =>
                 (match fmtV with
                  | .str s =>
                      (match check_group s RAW_FORMATS with
                       | .ok fmt => .ok (.elem (.math fmt txt))
                       | .error err => .error err)
                  | _ => .error "TypeError: not in group")
               | _ => .error "TypeError")
            | .error err => .error err)
         | .error err => .error err)
    | Option.none => .error "TypeError"
  else if tag == "Cite" then
    match c with
    | some cv =>
        (match pyIx cv 0 with
         | .ok citsV =>
           (match pyIter citsV with
            | .ok ds =>
              (match decodeCitationList ds with
               | .ok cits =>
                 (match pyIx cv 1 with
                  | .ok contV =>
                    (match asElemArgs isInline contV with
                     | .ok xs => .ok (.elem (.cite cits xs))
                     | .error err => .error err)
                  | .error err => .error err)
               | .error err => .error err)
            | .error err => .error err)
         | .error err => .error err)
    | Option.none => .error "TypeError"
  else if tag == "BulletList" then
    match c with
    | some cv =>
        (match pyIter cv with
         | .ok itemsV =>
           (match decodeListItems itemsV with
            | .ok items => .ok (.elem (.bulletList items))
            | .error err => .error err)
         | .error err => .error err)
    | Option.none => .error "TypeError: not iterable"
  else if tag == "OrderedList" then
    match c with
    | some cv =>
        (match pyIx cv 1 with
         | .ok itemsV =>
           (match pyIter itemsV with
            | .ok itemsL =>
              (match decodeListItems itemsL with
               | .ok items =>
                 (match pyIx cv 0 with
                  | .ok ssd =>
                    (match pyIx ssd 0, pyIx ssd 1, pyIx ssd 2 with
                     | .ok startV, .ok styleV, .ok delimV =>
                       (match pyInt startV with
                        | .ok start =>
                          (match styleV with
                           | .str st =>
                             (match check_group st LIST_NUMBER_STYLES with
                              | .ok style =>
                                (match delimV with
                                 | .str dl =>
                                   (match check_group dl LIST_NUMBER_DELIMITERS with
                                    | .ok delim =>
                                        .ok (.elem (.orderedList start style delim items))
                                    | .error err => .error err)
                                 | _ => .error "TypeError: not in group")
                              | .error err => .error err)
                           | _ => .error "TypeError: not in group")
                        | .error err => .error err)
                     | .error err, _, _ => .error err
                     | _, .error err, _ => .error err
                     | _, _, .error err => .error err)
                  | .error err => .error err)
               | .error err => .error err)
            | .error err => .error err)
         | .error err => .error err)
    | Option.none => .error "TypeError"
  else if tag == "Table" then
    -- header = _decode_row(c[3]); data = [_decode_row(x) for x in c[4]];
    -- Table(*data, caption=c[0], alignment=c[1], width=c[2], header=header)
    match c with
    | some cv =>
        (match pyIx cv 3 with
         | .ok headerV =>
           (match decodeRow headerV with
            | .ok headerRow =>
              (match pyIx cv 4 with
               | .ok rowsV =>
                 (match pyIter rowsV with
                  | .ok rowsL =>
                    (match decodeRows rowsL with
                     | .ok rows =>
                       (match pyIx cv 0 with
                        | .ok capV =>
                          (match pyIter capV with
                           | .ok capL =>
                             (match asElemsPlain capL with
                              | .ok capE =>
                                (match pyIx cv 1 with
                                 | .ok alV =>
                                   (match pyIter alV with
                                    | .ok alL =>
                                      (match asStrList alL with
                                       | .ok alS =>
                                         (match pyIx cv 2 with
                                          | .ok wV =>
                                            (match pyIter wV with
                                             | .ok wL =>
                                               (match asIntListL wL with
                                                | .ok wI =>
                                                  (match tableInit rows (some headerRow)
                                                      (some capE) (some alS) (some wI) with
                                                   | .ok t => .ok (.elem t)
                                                   | .error err => .error err)
                                                | .error err => .error err)
                                             | .error err => .error err)
                                          | .error err => .error err)
                                       | .error err => .error err)
                                    | .error err => .error err)
                                 | .error err => .error err)
                              | .error err => .error err)
                           | .error err => .error err)
                        | .error err => .error err)
                     | .error err => .error err)
                  | .error err => .error err)
               | .error err => .error err)
            | .error err => .error err)
         | .error err => .error err)
    | Option.none => .error "TypeError"
  else if tag == "MetaList" then
    match c with
    | some cv =>
        (match pyIter cv with
         | .ok xs =>
           (match metaListInit xs with
            | .ok e => .ok (.elem e)
            | .error err => .error err)
         | .error err => .error err)
    | Option.none => .error "TypeError: not iterable"
  else if tag == "MetaMap" then
    match c with
    | some (.dict kvs) =>
        (match metaMapInit kvs with
         | .ok e => .ok (.elem e)
         | .error err => .error err)
    | _ => .error "AttributeError"
  else if tag == "MetaInlines" then
    match c with
    | some cv =>
        (match asElemArgs isInline cv with
         | .ok xs => .ok (.elem (.metaInlines xs))
         | .error err => .error err)
    | Option.none => .error "TypeError: not iterable"
  else if tag == "MetaBlocks" then
    match c with
    | some cv =>
        (match asElemArgs isBlock cv with
         | .ok xs => .ok (.elem (.metaBlocks xs))
         | .error err => .error err)
    | Option.none => .error "TypeError: not iterable"
  else if tag == "MetaString" then
    match c with
    | some (.str s) => .ok (.elem (.metaString s))
    | _ => .error "TypeError"
  else if tag == "MetaBool" then
    match c with
    | some (.bool b) => .ok (.elem (.metaBool b))
    | _ => .error "AssertionError"
  else if tag ∈ SPECIAL_ELEMENTS then .ok (.str tag)
  else .error ("unknown tag: " ++ tag)

/-- `elements.py` `from_json`, applied to one decoded JSON object: the legacy
`unMeta` metadata envelope, the versioned document envelope, the untagged
pass-through, the key-cardinality assertion, and the tag dispatch, in source
order. -/
def from_json (data : List (String × PyVal)) : Except String PyVal :=
  if hasKey data "unMeta" then
    if data.length == 1 then
      match lookupKey data "unMeta" with
      | some (.dict kvs) =>
          (match metaMapInit kvs with
           | .ok e => .ok (.elem e)
           | .error err => .error err)
      | _ => .error "AttributeError"
    else .error "AssertionError"
  else if hasKey data "pandoc-api-version" then
    if data.length == 3 then
      match lookupKey data "pandoc-api-version" with
      | some api =>
          (match getKey data "meta" with
           | .ok metaV =>
             (match getKey data "blocks" with
              | .ok items =>
                (match docInit items metaV (some api) with
                 | .ok e => .ok (.elem e)
                 | .error err => .error err)
              | .error err => .error err)
           | .error err => .error err)
      | Option.none => .error "KeyError: pandoc-api-version"
    else .error "AssertionError"
  else if ¬ hasKey data "t" then .ok (.dict data)
  else if data.length == 1 || (data.length == 2 && hasKey data "c") then
    match lookupKey data "t" with
    | some (.str tag) => from_json_dispatch tag (lookupKey data "c")
    | _ => .error "TypeError"
  else .error "AssertionError"

mutual

/-- JSON loading with `from_json` as the object hook: every JSON object is
decoded bottom-up (values first) and then passed through `from_json`. -/
def decodeJson : Json → Except String PyVal
  | .null => .ok .none
  | .str s => .ok (.str s)
  | .int n => .ok (.num n)
  | .bool b => .ok (.bool b)
  | .arr xs =>
      match decodeJsonList xs with
      | .ok vs => .ok (.list vs)
      | .error err => .error err
  | .obj kvs =>
      match decodeJsonKVs kvs with
      | .ok vs => from_json vs
      | .error err => .error err

def decodeJsonList : List Json → Except String (List PyVal)
  | [] => .ok []
  | x :: xs =>
      match decodeJson x with
      | .ok v =>
          match decodeJsonList xs with
          | .ok vs => .ok (v :: vs)
          | .error err => .error err
      | .error err => .error err

def decodeJsonKVs : List (String × Json) → Except String (List (String × PyVal))
  | [] => .ok []
  | (k, x) :: xs =>
      match decodeJson x with
      | .ok v =>
          match decodeJsonKVs xs with
          | .ok vs => .ok ((k, v) :: vs)
          | .error err => .error err
      | .error err => .error err

end

-- Walk engine (base.py Element.walk, containers.py ListContainer.walk)

/-- What an action may return: `None` (keep the node), a single element, or a
Python list of elements. -/
inductive ARes where
  | skip
  | one (e : Elem)
  | many (xs : List Elem)

/-- What `Element.walk` returns: `self if altered is None else altered`. -/
inductive WRes where
  | one (e : Elem)
  | many (xs : List Elem)

/-- Whether the `for child in self._children` loop of `Element.walk` meets a
child attribute that is not `None`.  Kinds with `_children = []` (`Str`,
`Space`, `Math` via `InlineText`, `MetaString`, `MetaBool`) have no such
attribute; every other embedded kind stores at least one `ListContainer` or
`MetaMap` (never `None`) in its declared child slots. -/
def hasChildAttr : Elem → Bool
  | .str _ => false
  | .space => false
  | .math _ _ => false
  | .metaString _ => false
  | .metaBool _ => false
  | _ => true

/-- `Element.doc` on a freshly built (unattached) tree: `.parent` is `None`
below the root, so the loop finds a `Doc` only when the element itself is
one. -/
def inferDoc (e : Elem) : Option Elem :=
  match e with
  | .doc blocks meta fmt api => some (.doc blocks meta fmt api)
  | _ => Option.none

/-- `if doc is None: doc = self.doc` at the top of `Element.walk`. -/
def resolveDoc (doc : Option Elem) (e : Elem) : Option Elem :=
  match doc with
  | Option.none => inferDoc e
  | some d => some d

/-- `Element.walk`: resolve the document, then iterate `self._children`; for
a non-`None` child attribute the source tests `hasattr(child, 'walk')` where
`child` is the attribute NAME (a `str`, which has no `walk` method), so the
loop falls into `raise TypeError(type(obj))`; if no child attribute is hit,
`action` is applied and `self` is returned when it yields `None`. -/
def elemWalk (f : Elem → Option Elem → ARes) (doc : Option Elem) (e : Elem) :
    Except String WRes :=
  let d := resolveDoc doc e
  if hasChildAttr e then .error "TypeError"
  else
    match f e d with
    | .skip => .ok (.one e)
    | .one x => .ok (.one x)
    | .many xs => .ok (.many xs)

/-- `(item,) if type(item) != list else item`: the member-result
normalization inside `ListContainer.walk`. -/
def wresFlat : WRes → List Elem
  | .one e => [e]
  | .many xs => xs

/-- The generator `(item.walk(action, doc) for item in self)` with each
result normalized to a sequence. -/
def listWalkResults (f : Elem → Option Elem → ARes) (doc : Option Elem) :
    List Elem → Except String (List (List Elem))
  | [] => .ok []
  | x :: xs =>
      match elemWalk f doc x with
      | .ok r =>
          match listWalkResults f doc xs with
          | .ok rs => .ok (wresFlat r :: rs)
          | .error err => .error err
      | .error err => .error err

/-- `ListContainer.walk`: walk every member, normalize each result to a
sequence, and flatten with `chain.from_iterable`. -/
def listWalk (f : Elem → Option Elem → ARes) (doc : Option Elem)
    (items : List Elem) : Except String (List Elem) :=
  match listWalkResults f doc items with
  | .ok rs => .ok rs.flatten
  | .error err => .error err

-- Generic containers (containers.py) with parent/location stamping

/-- A contained element as the generic containers see it: a runtime kind tag
(standing for the Python class, checked against `oktypes`), an opaque
payload, and the mutable `parent` / `location` back-reference slots.  Owners
are identified by numeric ids. -/
structure PElem where
  kind : String
  payload : String
  parent : Option Nat
  location : Option String
  deriving DecidableEq

/-- `Element.__init__` with the default arguments: a freshly constructed
element is unattached. -/
def pelemInit (kind payload : String) : PElem :=
  { kind := kind, payload := payload, parent := Option.none, location := Option.none }

/-- `containers.attach`: stamp the container's owner and location onto the
element before handing it out. -/
def attach (e : PElem) (parent : Option Nat) (location : Option String) : PElem :=
  { e with parent := parent, location := location }

/-- `ListContainer` state: the backing list, the allowed-kind set, the owner
and the owner attribute it lives in. -/
structure LContainer where
  list : List PElem
  oktypes : List String
  parent : Option Nat
  location : Option String
  deriving DecidableEq

/-- `utils.check_type` as the containers use it, modelled from the spec
(utils.py is not under src/): an `isinstance` test against the allowed-kind
set, raising `TypeError` on failure. -/
def check_type (v : PElem) (oktypes : List String) : Except String PElem :=
  if v.kind ∈ oktypes then .ok v else .error "TypeError"

/-- `list.insert`: Python clamps an out-of-range index to an append. -/
def listInsertAt : List PElem → Nat → PElem → List PElem
  | xs, 0, v => v :: xs
  | [], _ + 1, v => [v]
  | x :: xs, n + 1, v => x :: listInsertAt xs n v

/-- `ListContainer.__getitem__` with an integer index: the stored element is
attached to (parent, location) on its way out. -/
def lcGetInt (c : LContainer) (i : Nat) : Except String PElem :=
  match c.list.get? i with
  | some e => .ok (attach e c.parent c.location)
  | Option.none => .error "IndexError"

/-- `ListContainer.insert`: type-check, then insert without stamping. -/
def lcInsert (c : LContainer) (i : Nat) (v : PElem) : Except String LContainer :=
  match check_type v c.oktypes with
  | .ok v2 => .ok { c with list := listInsertAt c.list i v2 }
  | .error err => .error err

/-- One positional argument of `ListContainer.__init__`: the source replaces
it by `value.list` when it is a `ListContainer` and by `list(value)`
otherwise — so a bare element (which is not iterable) raises `TypeError`. -/
inductive LCArg where
  | container (c : LContainer)
  | iterable (xs : List PElem)
  | element (e : PElem)

def lcArgItems : LCArg → Except String (List PElem)
  | .container c => .ok c.list
  | .iterable xs => .ok xs
  | .element _ => .error "TypeError: not iterable"

/-- `MutableSequence.extend`: insert each member at the end (type-checked). -/
def lcExtend (c : LContainer) (vs : List PElem) : Except String LContainer :=
  match checkList (fun v => v.kind ∈ c.oktypes) "TypeError" vs with
  | .ok vs2 => .ok { c with list := c.list ++ vs2 }
  | .error err => .error err

def lcInitLoop (c : LContainer) : List LCArg → Except String LContainer
  | [] => .ok c
  | a :: rest =>
      match lcArgItems a with
      | .ok items =>
          match lcExtend c items with
          | .ok c2 => lcInitLoop c2 rest
          | .error err => .error err
      | .error err => .error err

/-- `ListContainer.__init__(*args, oktypes, parent, location)`. -/
def lcInit (args : List LCArg) (oktypes : List String) (parent : Option Nat)
    (location : Option String) : Except String LContainer :=
  lcInitLoop { list := [], oktypes := oktypes, parent := parent, location := location } args

/-- `ListContainer.__getitem__` with a (simple, in-range) slice:
`ListContainer(*newlist, oktypes=self.oktypes, parent=self.parent)` followed
by `obj.location = self.location` — note the `*newlist` unpacking hands each
member to the constructor as a bare (non-iterable) element argument. -/
def lcGetSlice (c : LContainer) (lo hi : Nat) : Except String LContainer :=
  let newlist := (c.list.take hi).drop lo
  match lcInit (newlist.map LCArg.element) c.oktypes c.parent Option.none with
  | .ok obj => .ok { obj with location := c.location }
  | .error err => .error err

/-- `DictContainer` state; `__init__` hard-codes `self.location = None`. -/
structure DContainer where
  dict : List (String × PElem)
  oktypes : List String
  parent : Option Nat
  location : Option String
  deriving DecidableEq

/-- `DictContainer.__init__` before any `update`: empty insertion-ordered
dict, `location = None`. -/
def dcInit (oktypes : List String) (parent : Option Nat) : DContainer :=
  { dict := [], oktypes := oktypes, parent := parent, location := Option.none }

/-- Ordered-dict store: overwrite in place or append. -/
def dcStore (d : List (String × PElem)) (k : String) (v : PElem) :
    List (String × PElem) :=
  if d.any (fun kv => kv.fst == k) then
    d.map (fun kv => if kv.fst == k then (k, v) else kv)
  else d ++ [(k, v)]

/-- `DictContainer.__setitem__`: type-check, then store without stamping. -/
def dcSetItem (c : DContainer) (k : String) (v : PElem) : Except String DContainer :=
  match check_type v c.oktypes with
  | .ok v2 => .ok { c with dict := dcStore c.dict k v2 }
  | .error err => .error err

/-- `DictContainer.__getitem__`: the stored element is attached to
(parent, location) on its way out. -/
def dcGetItem (c : DContainer) (k : String) : Except String PElem :=
  match c.dict.find? (fun kv => kv.fst == k) with
  | some kv => .ok (attach kv.snd c.parent c.location)
  | Option.none => .error "KeyError"

/-- The replacement/deletion protocol as the specification states it: a
member's walk result is `None` (keep the member), a single node (replace by
it), or a sequence (splice, with the empty sequence deleting the member). -/
def specNormalize (r : ARes) (e : Elem) : List Elem :=
  match r with
  | .skip => [e]
  | .one x => [x]
  | .many xs => xs

/-- A two-column table row used as a concrete fixture. -/
def row2 : Elem := .tableRow [.tableCell [], .tableCell []]

-- General lemmas about the embedded operations

theorem checkList_ok_of_all (p : α → Bool) (err : String) (xs : List α)
    (h : ∀ x ∈ xs, p x = true) : checkList p err xs = .ok xs := by
  induction xs with
  | nil => rfl
  | cons x xs ih =>
      have hx : p x = true := h x (List.mem_cons_self x xs)
      have hxs : ∀ y ∈ xs, p y = true := fun y hy => h y (List.mem_cons_of_mem x hy)
      simp [checkList, hx, ih hxs]

theorem elemWalk_str (f : Elem → Option Elem → ARes) (doc : Option Elem) (t : String) :
    elemWalk f doc (.str t) =
      .ok (match f (.str t) doc with
           | .skip => WRes.one (.str t)
           | .one x => WRes.one x
           | .many xs => WRes.many xs) := by
  have hres : resolveDoc doc (.str t) = doc := by cases doc <;> rfl
  simp only [elemWalk, hres, hasChildAttr]
  cases f (.str t) doc <;> simp

theorem listWalkResults_str (f : Elem → Option Elem → ARes) (doc : Option Elem)
    (ts : List String) :
    listWalkResults f doc (ts.map Elem.str) =
      .ok (ts.map fun t => specNormalize (f (.str t) doc) (.str t)) := by
  induction ts with
  | nil => rfl
  | cons t ts ih =>
      simp only [List.map_cons, listWalkResults, elemWalk_str f doc t, ih]
      cases f (.str t) doc <;> rfl

theorem pyTupleLt_asymm : ∀ (v w : List Int), pyTupleLt v w = true → pyTupleLt w v = false
  | [], [], h => by simp [pyTupleLt] at h
  | [], _ :: _, _ => rfl
  | _ :: _, [], h => by simp [pyTupleLt] at h
  | a :: as, b :: bs, h => by
      simp only [pyTupleLt, Bool.or_eq_true, Bool.and_eq_true, decide_eq_true_eq,
        beq_iff_eq] at h
      simp only [pyTupleLt, Bool.or_eq_false_iff, Bool.and_eq_false_iff,
        decide_eq_false_iff_not, beq_eq_false_iff_ne]
      rcases h with h | ⟨heq, h2⟩
      · refine ⟨by omega, Or.inl (by omega)⟩
      · exact ⟨by omega, Or.inr (pyTupleLt_asymm as bs h2)⟩

theorem pyTupleLt_irrefl (v : List Int) : pyTupleLt v v = false := by
  cases h : pyTupleLt v v with
  | false => rfl
  | true => exact absurd h (by rw [pyTupleLt_asymm v v h]; exact Bool.false_ne_true)

theorem pyTupleLt_total : ∀ (v w : List Int),
    pyTupleLt v w = false → pyTupleLt w v = false → v = w
  | [], [], _, _ => rfl
  | [], _ :: _, h, _ => by simp [pyTupleLt] at h
  | _ :: _, [], _, h2 => by simp [pyTupleLt] at h2
  | a :: as, b :: bs, h, h2 => by
      simp only [pyTupleLt, Bool.or_eq_false_iff, Bool.and_eq_false_iff,
        decide_eq_false_iff_not, beq_eq_false_iff_ne] at h h2
      have hab : a = b := by omega
      subst hab
      have h3 : pyTupleLt as bs = false := by
        rcases h.2 with h4 | h4
        · exact absurd rfl h4
        · exact h4
      have h4 : pyTupleLt bs as = false := by
        rcases h2.2 with h5 | h5
        · exact absurd rfl h5
        · exact h5
      rw [pyTupleLt_total as bs h3 h4]

theorem pyTupleLe_false_iff (v w : List Int) :
    pyTupleLe v w = false ↔ pyTupleLt w v = true := by
  constructor
  · intro h
    simp only [pyTupleLe, Bool.or_eq_false_iff, beq_eq_false_iff_ne] at h
    obtain ⟨h1, h2⟩ := h
    cases hwv : pyTupleLt w v with
    | true => rfl
    | false => exact absurd (pyTupleLt_total v w h1 hwv) h2
  · intro h
    have h1 : pyTupleLt v w = false := pyTupleLt_asymm w v h
    have h2 : v ≠ w := by
      rintro rfl
      rw [pyTupleLt_irrefl] at h
      exact Bool.noConfusion h
    simp [pyTupleLe, h1, h2]

-- Supporting round-trip facts (the healthy half of the codec): kinds whose
-- encoder and decoder do agree round-trip in both wire formats.

theorem roundtrip_para_new_format :
    decodeJson (toJson (.para [.str "a", .emph [.str "b"]])) =
      .ok (.elem (.para [.str "a", .emph [.str "b"]])) := rfl

theorem roundtrip_quoted_both_formats :
    decodeJson (toJsonM false (.quoted "SingleQuote" [.str "x"])) =
      .ok (.elem (.quoted "SingleQuote" [.str "x"]))
    ∧ decodeJson (toJsonM true (.quoted "SingleQuote" [.str "x"])) =
      .ok (.elem (.quoted "SingleQuote" [.str "x"])) := ⟨rfl, rfl⟩

-- Claim theorems

/-- C1: the claim states that `decode(encode(x))` reproduces every
representative node kind and full documents in both envelopes.  The code
violates it: the default `Element.to_json` wraps `ListItem` (and `TableRow`,
`TableCell`) children as `{"t": tag, "c": ...}` objects, but `from_json` has
no branch for those tags, so decoding what the encoder produced for a
`BulletList(ListItem(Para(Str("a"))))` fails with `unknown tag: ListItem`
instead of reproducing the tree. -/
theorem c1_roundtrip_fails_on_list_kinds :
    decodeJson (toJson (.bulletList [.listItem [.para [.str "a"]]])) =
      .error "unknown tag: ListItem" := rfl

/-- C2: the claim states that `walk` visits depth-first post-order.  The code
violates it: `Element.walk` tests `hasattr(child, 'walk')` on the attribute
NAME string (which has no `walk` method), so the loop raises
`TypeError(type(obj))` for every element whose child attribute is not `None`
— including `Para(Str("a"), Emph(Str("b")))` and the `Doc(Para(Str("a")))`
example in the method's own docstring — before any child is visited. -/
theorem c2_walk_raises_on_any_element_with_children
    (f : Elem → Option Elem → ARes) (doc : Option Elem) :
    elemWalk f doc (.para [.str "a", .emph [.str "b"]]) = .error "TypeError"
    ∧ elemWalk f doc (.doc [.para [.str "a"]] [] "html" Option.none) =
        .error "TypeError" := ⟨rfl, rfl⟩

/-- C3: during `ListContainer.walk` each member's result is normalized to a
sequence (`None` keeps the member, a single node becomes a one-element
sequence, a list is spliced as-is — so the empty list deletes the member)
and the sequences are concatenated in member order; in particular, walking a
three-element container with an action that deletes the second yields the
remaining two in original order. -/
theorem c3_ordered_container_walk_protocol :
    (∀ (f : Elem → Option Elem → ARes) (doc : Option Elem) (ts : List String),
        listWalk f doc (ts.map Elem.str) =
          .ok ((ts.map fun t => specNormalize (f (.str t) doc) (.str t)).flatten))
    ∧ listWalk
        (fun e _ => match e with
          | .str t => if t == "b" then .many [] else .skip
          | _ => .skip)
        Option.none [.str "a", .str "b", .str "c"] = .ok [.str "a", .str "c"] := by
  constructor
  · intro f doc ts
    simp [listWalk, listWalkResults_str]
  · rfl

/-- C4: for every enum-valued field (quote type, math format, list
style/delimiter, citation mode, table alignment) the encoder produces
`{"t": value}` in new-format mode and `{"t": value, "c": []}` in legacy
mode, and the serializer entry point selects between the two solely by
whether `Document.api_version` is set. -/
theorem c4_enum_fields_gated_on_api_version :
    (∀ (qt : String) (cs : List Elem),
        toJsonM false (.quoted qt cs) =
          .obj [("t", .str "Quoted"),
                ("c", .arr [.obj [("t", .str qt)], .arr (toJsonListM false cs)])]
      ∧ toJsonM true (.quoted qt cs) =
          .obj [("t", .str "Quoted"),
                ("c", .arr [.obj [("t", .str qt), ("c", .arr [])],
                            .arr (toJsonListM true cs)])])
    ∧ (∀ fmt txt : String,
        toJsonM false (.math fmt txt) =
          .obj [("t", .str "Math"), ("c", .arr [.obj [("t", .str fmt)], .str txt])]
      ∧ toJsonM true (.math fmt txt) =
          .obj [("t", .str "Math"),
                ("c", .arr [.obj [("t", .str fmt), ("c", .arr [])], .str txt])])
    ∧ (∀ (start : Int) (style delim : String) (cs : List Elem),
        toJsonM false (.orderedList start style delim cs) =
          .obj [("t", .str "OrderedList"),
                ("c", .arr [.arr [.int start, .obj [("t", .str style)],
                                  .obj [("t", .str delim)]],
                            .arr (toJsonListM false cs)])]
      ∧ toJsonM true (.orderedList start style delim cs) =
          .obj [("t", .str "OrderedList"),
                ("c", .arr [.arr [.int start, .obj [("t", .str style), ("c", .arr [])],
                                  .obj [("t", .str delim), ("c", .arr [])]],
                            .arr (toJsonListM true cs)])])
    ∧ (∀ (cid mode : String) (pre suf : List Elem) (nn h : Int),
        toJsonM false (.citation cid mode pre suf nn h) =
          .obj [("citationSuffix", .arr (toJsonListM false suf)),
                ("citationNoteNum", .int nn),
                ("citationMode", .obj [("t", .str mode)]),
                ("citationPrefix", .arr (toJsonListM false pre)),
                ("citationId", .str cid),
                ("citationHash", .int h)]
      ∧ toJsonM true (.citation cid mode pre suf nn h) =
          .obj [("citationSuffix", .arr (toJsonListM true suf)),
                ("citationNoteNum", .int nn),
                ("citationMode", .obj [("t", .str mode), ("c", .arr [])]),
                ("citationPrefix", .arr (toJsonListM true pre)),
                ("citationId", .str cid),
                ("citationHash", .int h)])
    ∧ (∀ (c cap : List Elem) (al : List String) (w : List Int) (r cols : Nat),
        toJsonM false (.table c Option.none cap al w r cols) =
          .obj [("t", .str "Table"),
                ("c", .arr [.arr (toJsonListM false cap),
                            .arr (al.map fun x => Json.obj [("t", .str x)]),
                            .arr (w.map Json.int),
                            .arr (List.replicate cols (.arr [])),
                            .arr (toJsonListM false c)])]
      ∧ toJsonM true (.table c Option.none cap al w r cols) =
          .obj [("t", .str "Table"),
                ("c", .arr [.arr (toJsonListM true cap),
                            .arr (al.map fun x => Json.obj [("t", .str x), ("c", .arr [])]),
                            .arr (w.map Json.int),
                            .arr (List.replicate cols (.arr [])),
                            .arr (toJsonListM true c)])])
    ∧ (∀ (blocks : List Elem) (meta : List (String × Elem)) (fmt : String)
          (api : Option (List Int)),
        dump (.doc blocks meta fmt api) = toJsonM api.isNone (.doc blocks meta fmt api)) :=
  ⟨fun _ _ => ⟨rfl, rfl⟩, fun _ _ => ⟨rfl, rfl⟩, fun _ _ _ _ => ⟨rfl, rfl⟩,
   fun _ _ _ _ _ _ => ⟨rfl, rfl⟩, fun _ _ _ _ _ _ => ⟨rfl, rfl⟩,
   fun _ _ _ _ => rfl⟩

/-- C5 counterexample: the claim states that any api_version with four or
more components is rejected, but the source only rejects
`len(api_version) > 4`: a four-component version greater than `(1, 17, 0)`
is accepted. -/
theorem c5_counterexample_four_component_version_accepted :
    docApiValidate (some [1, 18, 0, 0]) = .ok (some [1, 18, 0, 0]) := rfl

/-- C5 amended: Document construction succeeds when api_version is absent
(legacy) or when it has at most four components and is tuple-lexicographically
greater than `(1, 17, 0)`; it fails for `(1, 17, 0)` itself and for any
version with five or more components; `(1, 18, 0)` succeeds. -/
theorem c5_api_version_validation :
    docApiValidate Option.none = .ok Option.none
    ∧ (∀ v : List Int, docApiValidate (some v) = .ok (some v) ↔
        (v.length ≤ 4 ∧ pyTupleLt [1, 17, 0] v = true))
    ∧ docApiValidate (some [1, 17, 0]) = .error "TypeError: invalid api version"
    ∧ docApiValidate (some [1, 18, 0]) = .ok (some [1, 18, 0])
    ∧ (∀ a b c d e : Int,
        docApiValidate (some [a, b, c, d, e]) = .error "TypeError: invalid api version") := by
  refine ⟨rfl, ?_, rfl, rfl, ?_⟩
  · intro v
    constructor
    · intro h
      simp only [docApiValidate] at h
      split_ifs at h with h1 h2
      refine ⟨by omega, ?_⟩
      have hle : pyTupleLe v [1, 17, 0] = false := by
        cases hc : pyTupleLe v [1, 17, 0] with
        | true => exact absurd hc h2
        | false => rfl
      exact (pyTupleLe_false_iff v [1, 17, 0]).mp hle
    · rintro ⟨hlen, hlt⟩
      have hle : pyTupleLe v [1, 17, 0] = false :=
        (pyTupleLe_false_iff v [1, 17, 0]).mpr hlt
      have hgt : ¬ v.length > 4 := by omega
      simp only [docApiValidate]
      rw [if_neg hgt, if_neg (by simp [hle])]
  · intro a b c d e
    simp only [docApiValidate]
    rw [if_pos (by simp)]

/-- C5 witness: the amended characterization instantiated at `(1, 18, 0)`. -/
theorem c5_api_version_validation_witness :
    ([1, 18, 0] : List Int).length ≤ 4 ∧ pyTupleLt [1, 17, 0] [1, 18, 0] = true :=
  (c5_api_version_validation.2.1 [1, 18, 0]).mp rfl

/-- C6: reading an element back through the ordered or keyed container it was
inserted into stamps (and hence reports) `parent` as the container's owner
and `location` as the container's location tag (for keyed containers the
tag is always `None`, as `DictContainer.__init__` fixes); a freshly
constructed element is unattached (`parent = None`). -/
theorem c6_attach_on_access :
    (∀ (c : LContainer) (i : Nat) (v : PElem) (c2 : LContainer),
        lcInsert c i v = .ok c2 →
        ∀ (j : Nat) (e : PElem), lcGetInt c2 j = .ok e →
          e.parent = c.parent ∧ e.location = c.location)
    ∧ (∀ (d : DContainer) (k : String) (v : PElem) (d2 : DContainer),
        dcSetItem d k v = .ok d2 →
        ∀ (k2 : String) (e : PElem), dcGetItem d2 k2 = .ok e →
          e.parent = d.parent ∧ e.location = d.location)
    ∧ (∀ (okt : List String) (p : Option Nat), (dcInit okt p).location = Option.none)
    ∧ (∀ kind payload : String,
        (pelemInit kind payload).parent = Option.none
        ∧ (pelemInit kind payload).location = Option.none) := by
  refine ⟨?_, ?_, fun okt p => rfl, fun kind payload => ⟨rfl, rfl⟩⟩
  · intro c i v c2 hins j e hget
    unfold lcInsert at hins
    split at hins
    · cases hins
      unfold lcGetInt at hget
      split at hget
      · cases hget
        exact ⟨rfl, rfl⟩
      · exact Except.noConfusion hget
    · exact Except.noConfusion hins
  · intro d k v d2 hset k2 e hget
    unfold dcSetItem at hset
    split at hset
    · cases hset
      unfold dcGetItem at hget
      split at hget
      · cases hget
        exact ⟨rfl, rfl⟩
      · exact Except.noConfusion hget
    · exact Except.noConfusion hset

/-- C6 witness: inserting a fresh element into a list container owned by
node 7 at location `content` and reading it back yields that owner and
location. -/
theorem c6_attach_on_access_witness :
    (attach (pelemInit "Inline" "a") (some 7) (some "content")).parent = some 7
    ∧ (attach (pelemInit "Inline" "a") (some 7) (some "content")).location =
        some "content" :=
  c6_attach_on_access.1
    { list := [], oktypes := ["Inline"], parent := some 7, location := some "content" }
    0 (pelemInit "Inline" "a")
    { list := [pelemInit "Inline" "a"], oktypes := ["Inline"], parent := some 7,
      location := some "content" }
    rfl 0 (attach (pelemInit "Inline" "a") (some 7) (some "content")) rfl

/-- C7 counterexample: the claim states every write of a native value into a
metadata container is coerced by `builtin2meta`, and that sequences become
List nodes with members recursively coerced.  The code violates both:
`MetaList.append` performs no coercion (the raw type check rejects the
native number), and a sequence containing a string fails (strings pass
through `builtin2meta` uncoerced and are then rejected by the MetaValue
check) instead of becoming a List node of String nodes. -/
theorem c7_counterexample_uncoerced_writes :
    metaListAppend [] (.num 1) = .error "TypeError"
    ∧ builtin2meta (.list [.num 1, .str "x"]) = .error "TypeError" := by
  refine ⟨rfl, ?_⟩
  simp [builtin2meta, metaListInit, b2mAll, checkMetaAll, asMetaElem, isMetaValue]

/-- C7 amended: `builtin2meta` coerces booleans to Bool nodes, numbers to
String nodes of their textual form, sequences to List nodes and mappings to
Map nodes with members recursively coerced, wraps block-kind nodes in Blocks
and inline-kind nodes in Inlines, and passes anything else (e.g. raw
strings) through unchanged — whereupon the container's MetaValue type check
rejects it.  The coercion is applied at construction and by the indexed
assignment of `MetaList` and `MetaMap`, but NOT by `MetaList.append`, which
rejects native values with a TypeError. -/
theorem c7_builtin2meta_coercion :
    (∀ b, builtin2meta (.bool b) = .ok (.elem (.metaBool b)))
    ∧ (∀ n : Int, builtin2meta (.num n) = .ok (.elem (.metaString (toString n))))
    ∧ (∀ (b : Bool) (n : Int), builtin2meta (.list [.bool b, .num n]) =
        .ok (.elem (.metaList [.metaBool b, .metaString (toString n)])))
    ∧ (∀ (k : String) (b : Bool), builtin2meta (.dict [(k, .bool b)]) =
        .ok (.elem (.metaMap [(k, .metaBool b)])))
    ∧ (∀ xs, builtin2meta (.elem (.para xs)) = .ok (.elem (.metaBlocks [.para xs])))
    ∧ (∀ s, builtin2meta (.elem (.str s)) = .ok (.elem (.metaInlines [.str s])))
    ∧ (∀ s, builtin2meta (.str s) = .ok (.str s))
    ∧ (∀ (e : Elem) (b : Bool), metaListSet [e] 0 (.bool b) = .ok [.metaBool b])
    ∧ (∀ (k : String) (b : Bool), metaMapSet [] k (.bool b) = .ok [(k, .metaBool b)])
    ∧ (∀ n : Int, metaListAppend [] (.num n) = .error "TypeError") := by
  refine ⟨?_, ?_, ?_, ?_, ?_, ?_, ?_, ?_, ?_, ?_⟩ <;> intros <;>
    simp [builtin2meta, metaListInit, metaMapInit, b2mAll, b2mAllKVs, checkMetaAll,
      checkMetaAllKVs, asMetaElem, isMetaValue, isBlock, isInline, metaListSet,
      metaMapSet, metaListAppend, dictStore]

/-- C8: the claim states that slicing an ordered container returns a new
container with the same kind set, owner and location.  The code violates it:
the slice branch calls `ListContainer(*newlist, ...)`, and the constructor
applies `list(value)` to each unpacked member — elements are not iterable,
so slicing any non-empty container raises `TypeError` instead of returning a
container. -/
theorem c8_slice_raises_typeerror (e : PElem) (okt : List String) (p : Option Nat)
    (loc : Option String) :
    lcGetSlice { list := [e], oktypes := okt, parent := p, location := loc } 0 1 =
      .error "TypeError: not iterable" := rfl

/-- C9: constructing a Table whose alignment list, width list or header row
length differs from the first row's column count fails with the
column-mismatch `IndexError` (the spec's StructuralMismatch). -/
theorem c9_table_structural_validation :
    (∀ al : List String, (∀ a ∈ al, a ∈ TABLE_ALIGNMENT) → al.length ≠ 2 →
        tableInit [row2] Option.none Option.none (some al) Option.none =
          .error "IndexError: alignment has an incorrect number of cols")
    ∧ (∀ w : List Int, w.length ≠ 2 →
        tableInit [row2] Option.none Option.none Option.none (some w) =
          .error "IndexError: width has an incorrect number of cols")
    ∧ (∀ cells : List Elem, (∀ c ∈ cells, isTableCellE c = true) → cells.length ≠ 2 →
        tableInit [row2] (some (.tableRow cells)) Option.none Option.none Option.none =
          .error "IndexError: table header has an incorrect number of cols") := by
  refine ⟨?_, ?_, ?_⟩
  · intro al hmem hlen
    have hck : checkList (fun a => a ∈ TABLE_ALIGNMENT) "TypeError: not in group" al =
        .ok al :=
      checkList_ok_of_all _ _ al (fun x hx => by simpa using hmem x hx)
    simp [tableInit, row2, rowCells, checkList, isTableRowE, hck, hlen]
  · intro w hlen
    simp [tableInit, row2, rowCells, checkList, isTableRowE, hlen]
  · intro cells hcells hlen
    have hck : checkList isTableCellE "TypeError" cells = .ok cells :=
      checkList_ok_of_all _ _ cells hcells
    simp [tableInit, row2, rowCells, checkList, isTableRowE, hck, hlen]

/-- C9 witness: a one-row two-column table with a three-entry alignment list
fails. -/
theorem c9_table_structural_validation_witness :
    ((∀ a ∈ (["AlignLeft", "AlignRight", "AlignCenter"] : List String),
        a ∈ TABLE_ALIGNMENT)
      ∧ (["AlignLeft", "AlignRight", "AlignCenter"] : List String).length ≠ 2)
    ∧ tableInit [row2] Option.none Option.none
        (some ["AlignLeft", "AlignRight", "AlignCenter"]) Option.none =
        .error "IndexError: alignment has an incorrect number of cols" :=
  ⟨⟨by decide, by decide⟩,
   c9_table_structural_validation.1 ["AlignLeft", "AlignRight", "AlignCenter"]
     (by decide) (by decide)⟩

/-- C10: constructing a Table with zero rows always fails (the unguarded
`self.content[0]` raises `IndexError`), so every successfully constructed
Table has at least one row (and hence a well-defined column count). -/
theorem c10_table_requires_first_row :
    (∀ (h : Option Elem) (cap : Option (List Elem)) (al : Option (List String))
        (w : Option (List Int)),
        tableInit [] h cap al w = .error "IndexError: list index out of range")
    ∧ (∀ (args : List Elem) (h : Option Elem) (cap : Option (List Elem))
        (al : Option (List String)) (w : Option (List Int)) (t : Elem),
        tableInit args h cap al w = .ok t → args ≠ []) := by
  constructor
  · intro h cap al w
    rfl
  · intro args h cap al w t hok
    cases args with
    | nil =>
        rw [show tableInit [] h cap al w = .error "IndexError: list index out of range"
            from rfl] at hok
        exact Except.noConfusion hok
    | cons a as => exact fun hc => List.noConfusion hc

/-- C10 witness: a successfully constructed one-row table, fed through the
theorem, is concluded non-empty. -/
theorem c10_table_requires_first_row_witness : ([row2] : List Elem) ≠ [] :=
  c10_table_requires_first_row.2 [row2] Option.none Option.none Option.none Option.none
    (.table [row2] Option.none [] ["AlignDefault", "AlignDefault"] [0, 0] 1 2) rfl

end Panflute
